/-
Verification of the DdiMon shadow-breakpoint core (DdiMon/shadow_bp.cpp).

Shallow embedding notes.

* Machine words (addresses, thread ids, handler function pointers, captured
  parameters) are modeled as `Nat`.  `HANDLE` values that may be `nullptr`
  (`PatchInformation::target_tid`) are `Option Nat`.
* The module-level globals (`g_sbpp_breakpoints`, `g_sbpp_last_breakpoint`,
  `g_sbpp_previouse_guest_interrupt_flag`), the VMCS fields the code touches,
  the EPT, and the shadow-page heap are collected into one `Machine` record;
  every stateful C++ function becomes a Lean function from `Machine`.
* Shadow pages live in a heap `pageBytes : Nat -> Nat -> Nat` keyed by a page
  id allocated by `allocatePage`; `std::shared_ptr<Page>` fields of
  `PatchInformation` become page ids, so aliasing of shadow pages between
  records on the same guest page is preserved.
* The EPT is `eptEntries : Nat -> EptEntry`, keyed by the physical page frame
  number; `EptGetEptPtEntry(ept, pa)` is lookup at key `pa / PAGE_SIZE`, and a
  mutation through the returned pointer is a pointwise update at that key.
  `UtilInveptAll` / `KeInvalidateAllCaches` increment event counters.
* Virtual-to-physical translation (`UtilPaFromVa`) is page granular, as on
  real hardware: the machine carries an arbitrary page-frame map `paPage` and
  `UtilPaFromVa va = paPage (va / PAGE_SIZE) * PAGE_SIZE + va % PAGE_SIZE`.
* `HYPERPLATFORM_COMMON_BUG_CHECK` is a fatal stop, modeled with
  `Except BugCheck`.  `NT_ASSERT` / `NT_VERIFY` compile to nothing in free
  builds and are deliberately distinct from the bug-check macro in this code
  base, so they are modeled as no-ops; where the code dereferences a null
  pointer right after such an assertion (`*SbppRestoreLastPatchInfo()` in the
  MTF handler, `ptrs->begin()` on a null registry) the dereference itself is
  modeled as the fatal `BugCheck.nullDereference`.
* Pre/post handler bodies (`info->handler`) live outside this translation
  unit; invoking one is modeled as an `SbpAction.runHandler` event in the
  action trace emitted by `SbpHandleBreakpoint`, which also records the CR3
  writes and the engine operations in execution order.
-/
import Mathlib

set_option maxHeartbeats 1000000

def PAGE_SIZE : Nat := 4096

def DISPATCH_LEVEL : Nat := 2

/-- Model of `PAGE_ALIGN(a)`: round an address down to its page base. -/
def PAGE_ALIGN (a : Nat) : Nat := a / PAGE_SIZE * PAGE_SIZE

/-- Model of `BYTE_OFFSET(a)`: offset of an address within its page. -/
def BYTE_OFFSET (a : Nat) : Nat := a % PAGE_SIZE

/-- Model of `UtilPfnFromPa`: page frame number of a physical address. -/
def UtilPfnFromPa (pa : Nat) : Nat := pa / PAGE_SIZE

inductive BreakpointType where
  | kPre
  | kPost
deriving DecidableEq, Repr

/-- Model of `BreakpointTarget`: the caller-supplied pair of handler entry points. -/
structure BreakpointTarget where
  pre_handler : Nat
  post_handler : Nat
deriving DecidableEq, Repr

/-- Model of `PatchInformation`: one installed breakpoint.  Shadow-page `shared_ptr`s
are page ids into the machine's page heap; `pa_base_for_*` are the cached
physical base addresses of the two shadow pages. -/
structure PatchInformation where
  patch_address : Nat
  type : BreakpointType
  handler : Nat
  post_handler : Nat
  target_tid : Option Nat
  parameters : Nat
  name : Nat
  shadow_page_base_for_rw : Nat
  shadow_page_base_for_exec : Nat
  pa_base_for_rw : Nat
  pa_base_for_exec : Nat
deriving DecidableEq, Repr

/-- One EPT (SLAT) leaf entry, with the fields the code touches.  The field
`physial_address` keeps the source's spelling; it holds a page frame number. -/
structure EptEntry where
  read_access : Bool
  write_access : Bool
  execute_access : Bool
  physial_address : Nat
deriving DecidableEq, Repr

/-- Guest RFLAGS, split into the interrupt-enable bit the code manipulates
and the remaining bits. -/
structure FlagRegister where
  intf : Bool
  rest : Nat
deriving DecidableEq, Repr

/-- Processor-based VM-execution controls, split into the monitor-trap-flag
bit and the remaining bits. -/
structure VmxProcessorBasedControls where
  monitor_trap_flag : Bool
  rest : Nat
deriving DecidableEq, Repr

inductive BugCheck where
  | kCritialPoolAllocationFailure
  | kUnspecified
  | nullDereference
deriving DecidableEq, Repr

/-- The whole mutable state the translation unit can reach. -/
structure Machine where
  /-- Model of `g_sbpp_breakpoints`; `none` models the null pointer before
  `SbpInitialization` / after `SbpTermination`. -/
  g_sbpp_breakpoints : Option (List PatchInformation)
  /-- Model of `g_sbpp_last_breakpoint`. -/
  g_sbpp_last_breakpoint : Option PatchInformation
  /-- Model of `g_sbpp_previouse_guest_interrupt_flag`. -/
  g_sbpp_previouse_guest_interrupt_flag : Bool
  /-- current CR3 of the processor (the VMM's while a VM-exit is handled). -/
  cr3 : Nat
  /-- VMCS field `kGuestCr3`. -/
  guestCr3 : Nat
  /-- VMCS field `kGuestRsp`. -/
  guestRsp : Nat
  /-- VMCS field `kGuestRflags`. -/
  guestRflags : FlagRegister
  /-- VMCS field `kCpuBasedVmExecControl`. -/
  cpuBasedVmExecControl : VmxProcessorBasedControls
  /-- Model of `KeGetCurrentIrql()`. -/
  irql : Nat
  /-- Model of `PsGetCurrentThreadId()`. -/
  currentThread : Nat
  /-- EPT leaf entries, keyed by physical page frame number. -/
  eptEntries : Nat → EptEntry
  /-- number of `UtilInveptAll` calls so far. -/
  inveptCount : Nat
  /-- number of `KeInvalidateAllCaches` calls so far. -/
  cacheInvalidations : Nat
  /-- guest/kernel memory, a byte per virtual address. -/
  mem : Nat → Nat
  /-- shadow page heap: page id to page contents (a byte per offset). -/
  pageBytes : Nat → Nat → Nat
  /-- physical base address of a shadow page, by page id. -/
  pagePaOf : Nat → Nat
  /-- next page id the allocator hands out. -/
  nextPageId : Nat
  /-- allocator oracle: whether allocation number `n` succeeds. -/
  allocOk : Nat → Bool
  /-- virtual page number to physical page number map of the current
  address space. -/
  paPage : Nat → Nat

/-- Model of `UtilPaFromVa`: page-granular virtual-to-physical translation. -/
def UtilPaFromVa (s : Machine) (va : Nat) : Nat :=
  s.paPage (va / PAGE_SIZE) * PAGE_SIZE + va % PAGE_SIZE

/-- Events recorded by `SbpHandleBreakpoint`, in execution order.
`runHandler` carries the handler entry point and the guest RSP argument. -/
inductive SbpAction where
  | writeCr3 (v : Nat)
  | runHandler (h : Nat) (rsp : Nat)
  | enableRW (info : PatchInformation)
  | enableExec (info : PatchInformation)
  | disableShadowing (info : PatchInformation)
  | setMtf (enable : Bool)
  | saveLastInfo (info : PatchInformation)
  | eraseFromList (info : PatchInformation)
deriving DecidableEq, Repr

/-- Model of `SbppIsSbpActive`: the engine is initialized iff the registry exists. -/
def SbppIsSbpActive (s : Machine) : Bool :=
  s.g_sbpp_breakpoints.isSome

/-- Model of `SbppFindPatchInfoByAddress`: first record whose `patch_address` equals
`address` exactly. -/
def SbppFindPatchInfoByAddress (bps : List PatchInformation) (address : Nat) :
    Option PatchInformation :=
  bps.find? fun info => decide (info.patch_address = address)

/-- Model of `SbppFindPatchInfoByPage`: first record whose `patch_address` is on the
same page as `address`. -/
def SbppFindPatchInfoByPage (bps : List PatchInformation) (address : Nat) :
    Option PatchInformation :=
  bps.find? fun info => decide (PAGE_ALIGN info.patch_address = PAGE_ALIGN address)

/-- The predicate of `SbppFindDuplicatedPostPatchInfo`: a Post record on the
same page as `address` owned by `target_tid`. -/
def sbppIsDuplicatedPost (address : Nat) (target_tid : Option Nat)
    (info : PatchInformation) : Bool :=
  decide (info.type = BreakpointType.kPost ∧
    PAGE_ALIGN info.patch_address = PAGE_ALIGN address ∧
    info.target_tid = target_tid)

/-- Model of `SbppFindDuplicatedPostPatchInfo`. -/
def SbppFindDuplicatedPostPatchInfo (bps : List PatchInformation)
    (address : Nat) (target_tid : Option Nat) : Option PatchInformation :=
  bps.find? (sbppIsDuplicatedPost address target_tid)

/-- The match predicate of `SbppDeleteBreakpointFromList`: same
`patch_address` and same `target_tid`. -/
def sbppSameKey (info info2 : PatchInformation) : Bool :=
  decide (info.patch_address = info2.patch_address ∧
    info.target_tid = info2.target_tid)

/-- Model of `std::find_if` followed by `erase`: remove the first record matching
`info` by (patch_address, target_tid); keep everything else. -/
def sbppEraseFirstMatch (info : PatchInformation) :
    List PatchInformation → List PatchInformation
  | [] => []
  | x :: xs =>
    if sbppSameKey info x then xs else x :: sbppEraseFirstMatch info xs

/-- Model of `SbppDeleteBreakpointFromList`.  A null registry would be dereferenced by
`ptrs->begin()`, which is fatal. -/
def SbppDeleteBreakpointFromList (info : PatchInformation) (s : Machine) :
    Except BugCheck Machine :=
  match s.g_sbpp_breakpoints with
  | none => .error .nullDereference
  | some bps =>
    .ok { s with g_sbpp_breakpoints := some (sbppEraseFirstMatch info bps) }

/-- In-place `duplicated_info->parameters = parameters` through the pointer
returned by `SbppFindDuplicatedPostPatchInfo`: overwrite the `parameters`
field of the first matching record. -/
def sbppOverwriteFirstDupParams (address : Nat) (target_tid : Option Nat)
    (parameters : Nat) : List PatchInformation → List PatchInformation
  | [] => []
  | x :: xs =>
    if sbppIsDuplicatedPost address target_tid x then
      { x with parameters := parameters } :: xs
    else
      x :: sbppOverwriteFirstDupParams address target_tid parameters xs

/-- Model of `Page::Page`: allocate a non-paged page; bug check on failure.  A fresh
page is returned as a new page id whose contents are unspecified pool
memory (modeled as zero bytes). -/
def allocatePage (s : Machine) : Except BugCheck (Nat × Machine) :=
  if s.allocOk s.nextPageId then
    .ok (s.nextPageId,
      { s with
        nextPageId := s.nextPageId + 1
        pageBytes := fun id =>
          if id = s.nextPageId then fun _ => 0 else s.pageBytes id })
  else
    .error .kCritialPoolAllocationFailure

/-- Model of `RtlCopyMemory(page, page_base, PAGE_SIZE)`: copy one page of guest
memory starting at `srcBase` into shadow page `dst`. -/
def copyGuestPage (s : Machine) (dst : Nat) (srcBase : Nat) : Machine :=
  { s with
    pageBytes := fun id =>
      if id = dst then
        fun off => if off < PAGE_SIZE then s.mem (srcBase + off)
                   else s.pageBytes id off
      else s.pageBytes id }

/-- Model of `SbppEmbedBreakpoint`: write the 0xCC trap byte at `off` within shadow
page `pageId`, then `KeInvalidateAllCaches`. -/
def SbppEmbedBreakpoint (s : Machine) (pageId off : Nat) : Machine :=
  { s with
    pageBytes := fun id =>
      if id = pageId then
        fun o => if o = off then 0xcc else s.pageBytes id o
      else s.pageBytes id
    cacheInvalidations := s.cacheInvalidations + 1 }

/-- Model of `SbppCreateBreakpoint`: build a breakpoint object, reusing the shadow
pages of an existing record on the same page or allocating and filling a
fresh pair, then plant 0xCC on the exec shadow.  The fields later assigned
by `SbppCreatePreBreakpoint` / `SbppCreatePostBreakpoint` are the
value-initialized defaults here. -/
def SbppCreateBreakpoint (s : Machine) (address : Nat) :
    Except BugCheck (PatchInformation × Machine) :=
  match s.g_sbpp_breakpoints with
  | none => .error .nullDereference
  | some bps =>
    let pages :
        Except BugCheck (Nat × Nat × Machine) :=
      match SbppFindPatchInfoByPage bps address with
      | some reusable_info =>
        .ok (reusable_info.shadow_page_base_for_rw,
             reusable_info.shadow_page_base_for_exec, s)
      | none =>
        match allocatePage s with
        | .error e => .error e
        | .ok (rwId, s1) =>
          match allocatePage s1 with
          | .error e => .error e
          | .ok (execId, s2) =>
            let s3 := copyGuestPage s2 rwId (PAGE_ALIGN address)
            let s4 := copyGuestPage s3 execId (PAGE_ALIGN address)
            .ok (rwId, execId, s4)
    match pages with
    | .error e => .error e
    | .ok (rwId, execId, s') =>
      let info : PatchInformation :=
        { patch_address := address
          type := BreakpointType.kPre
          handler := 0
          post_handler := 0
          target_tid := none
          parameters := 0
          name := 0
          shadow_page_base_for_rw := rwId
          shadow_page_base_for_exec := execId
          pa_base_for_rw := s'.pagePaOf rwId
          pa_base_for_exec := s'.pagePaOf execId }
      .ok (info, SbppEmbedBreakpoint s' execId (BYTE_OFFSET address))

/-- Model of `SbppCreatePreBreakpoint`. -/
def SbppCreatePreBreakpoint (s : Machine) (address : Nat)
    (target : BreakpointTarget) (name : Nat) :
    Except BugCheck (PatchInformation × Machine) :=
  match SbppCreateBreakpoint s address with
  | .error e => .error e
  | .ok (info, s') =>
    .ok ({ info with
           type := BreakpointType.kPre
           handler := target.pre_handler
           post_handler := target.post_handler
           target_tid := none
           parameters := 0
           name := name }, s')

/-- Model of `SbppCreatePostBreakpoint`: built from a Pre record; its handler is the
Pre record's post handler. -/
def SbppCreatePostBreakpoint (s : Machine) (address : Nat)
    (info : PatchInformation) (target_tid : Nat) (parameters : Nat) :
    Except BugCheck (PatchInformation × Machine) :=
  match SbppCreateBreakpoint s address with
  | .error e => .error e
  | .ok (info_for_post, s') =>
    .ok ({ info_for_post with
           type := BreakpointType.kPost
           handler := info.post_handler
           post_handler := 0
           target_tid := some target_tid
           parameters := parameters
           name := info.name }, s')

/-- Model of `SbppAddBreakpointToList`: push onto the registry. -/
def SbppAddBreakpointToList (s : Machine) (info : PatchInformation) :
    Except BugCheck Machine :=
  match s.g_sbpp_breakpoints with
  | none => .error .nullDereference
  | some bps => .ok { s with g_sbpp_breakpoints := some (bps ++ [info]) }

/-- Model of `SbppEnablePageShadowingForExec`: deny read/write on the leaf entry of
the patched page and back it with the exec shadow frame, then invalidate.
The execute-access bit is not written. -/
def SbppEnablePageShadowingForExec (info : PatchInformation) (s : Machine) :
    Machine :=
  let key := UtilPaFromVa s info.patch_address / PAGE_SIZE
  let e := s.eptEntries key
  let e' := { e with
              write_access := false
              read_access := false
              physial_address := UtilPfnFromPa info.pa_base_for_exec }
  { s with
    eptEntries := fun q => if q = key then e' else s.eptEntries q
    inveptCount := s.inveptCount + 1 }

/-- Model of `SbppEnablePageShadowingForRW`: allow read/write on the leaf entry and
back it with the rw shadow frame, then invalidate.  The execute-access bit
is not written. -/
def SbppEnablePageShadowingForRW (info : PatchInformation) (s : Machine) :
    Machine :=
  let key := UtilPaFromVa s info.patch_address / PAGE_SIZE
  let e := s.eptEntries key
  let e' := { e with
              write_access := true
              read_access := true
              physial_address := UtilPfnFromPa info.pa_base_for_rw }
  { s with
    eptEntries := fun q => if q = key then e' else s.eptEntries q
    inveptCount := s.inveptCount + 1 }

/-- Model of `SbppDisablePageShadowing`: restore the identity mapping with full
permissions, then invalidate. -/
def SbppDisablePageShadowing (info : PatchInformation) (s : Machine) :
    Machine :=
  let pa_base := UtilPaFromVa s (PAGE_ALIGN info.patch_address)
  let key := pa_base / PAGE_SIZE
  let e := s.eptEntries key
  let e' := { e with
              execute_access := true
              write_access := true
              read_access := true
              physial_address := UtilPfnFromPa pa_base }
  { s with
    eptEntries := fun q => if q = key then e' else s.eptEntries q
    inveptCount := s.inveptCount + 1 }

/-- Model of `SbppIsShadowBreakpoint`: true when the byte on the rw shadow at the
patched offset is not 0xCC, i.e. the breakpoint is the VMM's own. -/
def SbppIsShadowBreakpoint (s : Machine) (info : PatchInformation) : Bool :=
  decide (s.pageBytes info.shadow_page_base_for_rw
    (BYTE_OFFSET info.patch_address) ≠ 0xcc)

/-- Model of `SbppSetMonitorTrapFlag`: write the MTF bit of the processor-based
controls; on arming, save the guest interrupt flag and clear it; on
disarming, restore the saved value. -/
def SbppSetMonitorTrapFlag (enable : Bool) (s : Machine) : Machine :=
  let vm_procctl := { s.cpuBasedVmExecControl with monitor_trap_flag := enable }
  let flags := s.guestRflags
  if enable then
    { s with
      cpuBasedVmExecControl := vm_procctl
      g_sbpp_previouse_guest_interrupt_flag := flags.intf
      guestRflags := { flags with intf := false } }
  else
    { s with
      cpuBasedVmExecControl := vm_procctl
      guestRflags :=
        { flags with intf := s.g_sbpp_previouse_guest_interrupt_flag } }

/-- Model of `SbppSaveLastPatchInfo`: store the record in the last-event slot.  The
`NT_ASSERT(!g_sbpp_last_breakpoint)` guard is a no-op in free builds, so an
occupied slot is silently overwritten. -/
def SbppSaveLastPatchInfo (info : PatchInformation) (s : Machine) : Machine :=
  { s with g_sbpp_last_breakpoint := some info }

/-- Model of `SbppRestoreLastPatchInfo`: read and clear the last-event slot; the
`NT_ASSERT(info)` guard is a no-op, the possibly-null pointer is returned. -/
def SbppRestoreLastPatchInfo (s : Machine) :
    Option PatchInformation × Machine :=
  (s.g_sbpp_last_breakpoint, { s with g_sbpp_last_breakpoint := none })

/-- Model of `SbpHandleBreakpoint`: the #BP VM-exit entry point.  Returns whether the
exit was consumed, the machine afterwards, and the trace of engine actions
in execution order. -/
def SbpHandleBreakpoint (s : Machine) (guest_ip : Nat) :
    Except BugCheck (Bool × Machine × List SbpAction) :=
  match s.g_sbpp_breakpoints with
  | none => .ok (false, s, [])
  | some bps =>
    match SbppFindPatchInfoByAddress bps guest_ip with
    | none => .ok (false, s, [])
    | some info =>
      if SbppIsShadowBreakpoint s info then
        if DISPATCH_LEVEL < s.irql then
          .error .kUnspecified
        else
          let guest_cr3 := s.guestCr3
          let vmm_cr3 := s.cr3
          match info.type with
          | BreakpointType.kPre =>
            -- __writecr3(guest_cr3); info->handler(...); __writecr3(vmm_cr3)
            let s1 := { s with cr3 := guest_cr3 }
            let s2 := { s1 with cr3 := vmm_cr3 }
            let s3 := SbppEnablePageShadowingForRW info s2
            let s4 := SbppSetMonitorTrapFlag true s3
            let s5 := SbppSaveLastPatchInfo info s4
            .ok (true, s5,
              [.writeCr3 guest_cr3, .runHandler info.handler s1.guestRsp,
               .writeCr3 vmm_cr3, .enableRW info, .setMtf true,
               .saveLastInfo info])
          | BreakpointType.kPost =>
            if info.target_tid = some s.currentThread then
              let s1 := { s with cr3 := guest_cr3 }
              let s2 := { s1 with cr3 := vmm_cr3 }
              match SbppDeleteBreakpointFromList info s2 with
              | .error e => .error e
              | .ok s3 =>
                match s3.g_sbpp_breakpoints with
                | none => .error .nullDereference
                | some bps3 =>
                  match SbppFindPatchInfoByPage bps3 guest_ip with
                  | some _ =>
                    .ok (true, s3,
                      [.writeCr3 guest_cr3,
                       .runHandler info.handler s1.guestRsp,
                       .writeCr3 vmm_cr3, .eraseFromList info])
                  | none =>
                    .ok (true, SbppDisablePageShadowing info s3,
                      [.writeCr3 guest_cr3,
                       .runHandler info.handler s1.guestRsp,
                       .writeCr3 vmm_cr3, .eraseFromList info,
                       .disableShadowing info])
            else
              let s1 := SbppEnablePageShadowingForRW info s
              let s2 := SbppSetMonitorTrapFlag true s1
              .ok (true, SbppSaveLastPatchInfo info s2,
                [.enableRW info, .setMtf true, .saveLastInfo info])
      else
        .ok (false, s, [])

/-- Model of `SbpHandleMonitorTrapFlag`: retrieve and clear the last-event slot,
re-enable the exec shadow for it, disarm MTF.  An empty slot yields a null
pointer that is dereferenced by `SbppEnablePageShadowingForExec(*info)`. -/
def SbpHandleMonitorTrapFlag (s : Machine) : Except BugCheck Machine :=
  match SbppRestoreLastPatchInfo s with
  | (none, _) => .error .nullDereference
  | (some info, s1) =>
    .ok (SbppSetMonitorTrapFlag false (SbppEnablePageShadowingForExec info s1))

/-- Model of `SbpHandleEptViolation`: show the rw shadow, arm MTF, remember the
record; ignore faults that are not on a tracked page. -/
def SbpHandleEptViolation (s : Machine) (fault_va : Nat) : Machine :=
  match s.g_sbpp_breakpoints with
  | none => s
  | some bps =>
    match SbppFindPatchInfoByPage bps fault_va with
    | none => s
    | some info =>
      SbppSaveLastPatchInfo info
        (SbppSetMonitorTrapFlag true (SbppEnablePageShadowingForRW info s))

/-- Model of `SbpCreatePreBreakpoint`: build a Pre record and push it. -/
def SbpCreatePreBreakpoint (s : Machine) (address : Nat)
    (target : BreakpointTarget) (name : Nat) : Except BugCheck Machine :=
  match SbppCreatePreBreakpoint s address target name with
  | .error e => .error e
  | .ok (info, s') => SbppAddBreakpointToList s' info

/-- Model of `SbpCreateAndEnablePostBreakpoint`: overwrite the captured parameters of
a duplicated Post record in place, or build a Post record from the Pre
record, push it, and enable the exec shadow for it. -/
def SbpCreateAndEnablePostBreakpoint (s : Machine) (address : Nat)
    (info : PatchInformation) (parameters : Nat) : Except BugCheck Machine :=
  match s.g_sbpp_breakpoints with
  | none => .error .nullDereference
  | some bps =>
    match SbppFindDuplicatedPostPatchInfo bps address (some s.currentThread) with
    | some _ =>
      .ok { s with
            g_sbpp_breakpoints :=
              some (sbppOverwriteFirstDupParams address (some s.currentThread)
                parameters bps) }
    | none =>
      match SbppCreatePostBreakpoint s address info s.currentThread parameters with
      | .error e => .error e
      | .ok (info_for_post, s1) =>
        match SbppAddBreakpointToList s1 info_for_post with
        | .error e => .error e
        | .ok s2 => .ok (SbppEnablePageShadowingForExec info_for_post s2)


/-- The EPT leaf-entry key `SbppEnablePageShadowingFor*` manipulates: the
physical page frame of the patched address. -/
def sbppEptKey (s : Machine) (va : Nat) : Nat :=
  UtilPaFromVa s va / PAGE_SIZE

/-- Every record's rw shadow still holds the contents of its guest page
(true from creation on, since the engine never writes rw shadows after the
initial copy). -/
def sbppRwShadowPristine (s : Machine) (bps : List PatchInformation) : Prop :=
  ∀ i ∈ bps, ∀ off, off < PAGE_SIZE →
    s.pageBytes i.shadow_page_base_for_rw off =
      s.mem (PAGE_ALIGN i.patch_address + off)

/-- Every record's rw and exec shadow pages are distinct heap pages (true
from creation on: the two pages come from separate allocations). -/
def sbppShadowPairsDistinct (bps : List PatchInformation) : Prop :=
  ∀ i ∈ bps, i.shadow_page_base_for_rw ≠ i.shadow_page_base_for_exec

/-- Invariant I2: at most one Post record per (page, owner thread) pair. -/
def sbppAtMostOnePostPer (bps : List PatchInformation) : Prop :=
  ∀ pg tid, List.countP (sbppIsDuplicatedPost pg tid) bps ≤ 1

/-! ### Concrete fixtures used by the witnesses and counterexamples -/

def samplePre : PatchInformation :=
  { patch_address := 0x21008
    type := BreakpointType.kPre
    handler := 11
    post_handler := 12
    target_tid := none
    parameters := 0
    name := 1
    shadow_page_base_for_rw := 0
    shadow_page_base_for_exec := 1
    pa_base_for_rw := 0x10000
    pa_base_for_exec := 0x11000 }

def samplePost : PatchInformation :=
  { patch_address := 0x22010
    type := BreakpointType.kPost
    handler := 12
    post_handler := 0
    target_tid := some 5
    parameters := 77
    name := 1
    shadow_page_base_for_rw := 2
    shadow_page_base_for_exec := 3
    pa_base_for_rw := 0x12000
    pa_base_for_exec := 0x13000 }

def sampleMachine : Machine :=
  { g_sbpp_breakpoints := some [samplePre, samplePost]
    g_sbpp_last_breakpoint := none
    g_sbpp_previouse_guest_interrupt_flag := false
    cr3 := 0x1AA000
    guestCr3 := 0x2BB000
    guestRsp := 0x9F00
    guestRflags := { intf := true, rest := 3 }
    cpuBasedVmExecControl := { monitor_trap_flag := false, rest := 9 }
    irql := 0
    currentThread := 5
    eptEntries := fun _ =>
      { read_access := true, write_access := true, execute_access := true
        physial_address := 0 }
    inveptCount := 0
    cacheInvalidations := 0
    mem := fun _ => 0x90
    pageBytes := fun _ _ => 0x90
    pagePaOf := fun i => 0x10000 + i * PAGE_SIZE
    nextPageId := 4
    allocOk := fun _ => true
    paPage := fun p => p }



/-- A machine whose EPT entries have the execute-access bit clear. -/
def mNoExecEntry : Machine :=
  { sampleMachine with
    eptEntries := fun _ =>
      { read_access := true, write_access := true, execute_access := false
        physial_address := 0 } }

/-- A machine whose last-event slot is already occupied. -/
def mOccupied : Machine :=
  { sampleMachine with g_sbpp_last_breakpoint := some samplePost }

/-- A machine with the last-event slot holding `samplePre`. -/
def mSlotPre : Machine :=
  { sampleMachine with g_sbpp_last_breakpoint := some samplePre }

/-- A machine exhibiting the fatal conditions: failing allocator, IRQL above
dispatch level, empty last-event slot. -/
def mFatal : Machine :=
  { sampleMachine with
    irql := 3
    allocOk := fun _ => false
    g_sbpp_breakpoints := some [samplePre] }


/-- A machine whose engine is not initialized (null registry). -/
def mInactive : Machine :=
  { sampleMachine with g_sbpp_breakpoints := none }

/-- A machine whose current thread differs from `samplePost`'s owner. -/
def mOtherThread : Machine :=
  { sampleMachine with currentThread := 6 }

/-! ### Basic facts about the registry lookups -/

theorem sbppFindPatchInfoByAddress_eq {bps : List PatchInformation} {a : Nat}
    {info : PatchInformation}
    (h : SbppFindPatchInfoByAddress bps a = some info) :
    info.patch_address = a := by
  unfold SbppFindPatchInfoByAddress at h
  have h2 := List.find?_some h
  simpa using h2

theorem sbppFindPatchInfoByAddress_mem {bps : List PatchInformation} {a : Nat}
    {info : PatchInformation}
    (h : SbppFindPatchInfoByAddress bps a = some info) :
    info ∈ bps := by
  unfold SbppFindPatchInfoByAddress at h
  exact List.mem_of_find?_eq_some h

theorem sbppFindPatchInfoByPage_page {bps : List PatchInformation} {a : Nat}
    {info : PatchInformation}
    (h : SbppFindPatchInfoByPage bps a = some info) :
    PAGE_ALIGN info.patch_address = PAGE_ALIGN a := by
  unfold SbppFindPatchInfoByPage at h
  have h2 := List.find?_some h
  simpa using h2

theorem sbppFindPatchInfoByPage_mem {bps : List PatchInformation} {a : Nat}
    {info : PatchInformation}
    (h : SbppFindPatchInfoByPage bps a = some info) :
    info ∈ bps := by
  unfold SbppFindPatchInfoByPage at h
  exact List.mem_of_find?_eq_some h

theorem page_align_add_offset (a : Nat) : PAGE_ALIGN a + BYTE_OFFSET a = a := by
  unfold PAGE_ALIGN BYTE_OFFSET PAGE_SIZE
  omega

theorem byte_offset_lt (a : Nat) : BYTE_OFFSET a < PAGE_SIZE := by
  unfold BYTE_OFFSET
  exact Nat.mod_lt a (by norm_num [PAGE_SIZE])

/-! ### Erase: first-match removal -/

theorem sbppEraseFirstMatch_no_match (info : PatchInformation) :
    ∀ bps : List PatchInformation, (∀ x ∈ bps, sbppSameKey info x = false) →
      sbppEraseFirstMatch info bps = bps := by
  intro bps
  induction bps with
  | nil => intro _; rfl
  | cons x xs ih =>
    intro h
    unfold sbppEraseFirstMatch
    rw [h x (List.mem_cons_self x xs)]
    simp only [Bool.false_eq_true, if_false, List.cons.injEq, true_and]
    exact ih fun y hy => h y (List.mem_cons_of_mem x hy)

theorem sbppEraseFirstMatch_append (info x : PatchInformation)
    (suf : List PatchInformation) :
    ∀ pre : List PatchInformation,
      (∀ y ∈ pre, sbppSameKey info y = false) → sbppSameKey info x = true →
      sbppEraseFirstMatch info (pre ++ x :: suf) = pre ++ suf := by
  intro pre
  induction pre with
  | nil =>
    intro _ hx
    show sbppEraseFirstMatch info (x :: suf) = suf
    unfold sbppEraseFirstMatch
    rw [hx]
    simp
  | cons y ys ih =>
    intro h hx
    show sbppEraseFirstMatch info (y :: (ys ++ x :: suf)) = y :: (ys ++ suf)
    unfold sbppEraseFirstMatch
    rw [h y (List.mem_cons_self y ys)]
    simp only [Bool.false_eq_true, if_false, List.cons.injEq, true_and]
    exact ih (fun z hz => h z (List.mem_cons_of_mem y hz)) hx

/-- Claim C10: erasing a record from the registry is a no-op when no stored
record matches the given record's (patch_address, target_tid) key, and when
matches exist it removes exactly the first matching record in insertion
order, leaving every other record in place. -/
theorem sbp_delete_breakpoint_from_list_spec (s : Machine)
    (bps : List PatchInformation) (info : PatchInformation)
    (hreg : s.g_sbpp_breakpoints = some bps) :
    ((∀ x ∈ bps, sbppSameKey info x = false) →
      SbppDeleteBreakpointFromList info s = .ok s) ∧
    (∀ pre x suf, bps = pre ++ x :: suf →
      (∀ y ∈ pre, sbppSameKey info y = false) → sbppSameKey info x = true →
      SbppDeleteBreakpointFromList info s =
        .ok { s with g_sbpp_breakpoints := some (pre ++ suf) }) := by
  constructor
  · intro h
    simp only [SbppDeleteBreakpointFromList, hreg]
    rw [sbppEraseFirstMatch_no_match info bps h, ← hreg]
  · intro pre x suf hb hpre hx
    simp only [SbppDeleteBreakpointFromList, hreg, hb]
    rw [sbppEraseFirstMatch_append info x suf pre hpre hx]

/-- Witness for C10 on a concrete two-record registry: a key matching no
record leaves the registry unchanged, and erasing with `samplePost`'s key
removes exactly that record. -/
theorem sbp_delete_breakpoint_from_list_spec_witness :
    SbppDeleteBreakpointFromList { samplePre with patch_address := 0x999 }
        sampleMachine = .ok sampleMachine ∧
    SbppDeleteBreakpointFromList samplePost sampleMachine =
      .ok { sampleMachine with g_sbpp_breakpoints := some [samplePre] } := by
  constructor
  · exact (sbp_delete_breakpoint_from_list_spec sampleMachine
      [samplePre, samplePost] _ rfl).1 (by decide)
  · exact (sbp_delete_breakpoint_from_list_spec sampleMachine
      [samplePre, samplePost] samplePost rfl).2 [samplePre] samplePost []
      rfl (by decide) (by decide)

/-! ### The SLAT programming operations (claim C6) -/

/-- Counterexample to C6 as stated: on an entry whose execute-access bit is
clear, `SbppEnablePageShadowingForExec` does not produce permissions
{exec=1, read=0, write=0} and `SbppEnablePageShadowingForRW` does not
produce {exec=1, read=1, write=1} — neither function writes the
execute-access bit, so it stays 0. -/
theorem sbp_enable_exec_bit_counterexample :
    ((SbppEnablePageShadowingForExec samplePre mNoExecEntry).eptEntries
      (sbppEptKey mNoExecEntry samplePre.patch_address)).execute_access = false ∧
    ((SbppEnablePageShadowingForRW samplePre mNoExecEntry).eptEntries
      (sbppEptKey mNoExecEntry samplePre.patch_address)).execute_access = false := by
  constructor <;> decide

/-- Claim C6 (amended): each SLAT operation touches only the leaf entry of
the patched page's guest-physical address and is followed by one global
SLAT invalidation; `SbppEnablePageShadowingForExec` clears read and write,
leaves the execute bit unchanged, and points the entry at the exec shadow's
frame; `SbppEnablePageShadowingForRW` sets read and write, leaves the
execute bit unchanged, and points the entry at the rw shadow's frame. -/
theorem sbp_enable_page_shadowing_effects (s : Machine)
    (info : PatchInformation) :
    (((SbppEnablePageShadowingForExec info s).eptEntries
        (sbppEptKey s info.patch_address)).write_access = false ∧
     ((SbppEnablePageShadowingForExec info s).eptEntries
        (sbppEptKey s info.patch_address)).read_access = false ∧
     ((SbppEnablePageShadowingForExec info s).eptEntries
        (sbppEptKey s info.patch_address)).execute_access =
       (s.eptEntries (sbppEptKey s info.patch_address)).execute_access ∧
     ((SbppEnablePageShadowingForExec info s).eptEntries
        (sbppEptKey s info.patch_address)).physial_address =
       UtilPfnFromPa info.pa_base_for_exec ∧
     (∀ q, q ≠ sbppEptKey s info.patch_address →
       (SbppEnablePageShadowingForExec info s).eptEntries q = s.eptEntries q) ∧
     (SbppEnablePageShadowingForExec info s).inveptCount = s.inveptCount + 1) ∧
    (((SbppEnablePageShadowingForRW info s).eptEntries
        (sbppEptKey s info.patch_address)).write_access = true ∧
     ((SbppEnablePageShadowingForRW info s).eptEntries
        (sbppEptKey s info.patch_address)).read_access = true ∧
     ((SbppEnablePageShadowingForRW info s).eptEntries
        (sbppEptKey s info.patch_address)).execute_access =
       (s.eptEntries (sbppEptKey s info.patch_address)).execute_access ∧
     ((SbppEnablePageShadowingForRW info s).eptEntries
        (sbppEptKey s info.patch_address)).physial_address =
       UtilPfnFromPa info.pa_base_for_rw ∧
     (∀ q, q ≠ sbppEptKey s info.patch_address →
       (SbppEnablePageShadowingForRW info s).eptEntries q = s.eptEntries q) ∧
     (SbppEnablePageShadowingForRW info s).inveptCount = s.inveptCount + 1) := by
  constructor
  · refine ⟨?_, ?_, ?_, ?_, ?_, ?_⟩
    · simp [SbppEnablePageShadowingForExec, sbppEptKey]
    · simp [SbppEnablePageShadowingForExec, sbppEptKey]
    · simp [SbppEnablePageShadowingForExec, sbppEptKey]
    · simp [SbppEnablePageShadowingForExec, sbppEptKey]
    · intro q hq
      simp only [sbppEptKey] at hq
      simp [SbppEnablePageShadowingForExec, hq]
    · simp [SbppEnablePageShadowingForExec]
  · refine ⟨?_, ?_, ?_, ?_, ?_, ?_⟩
    · simp [SbppEnablePageShadowingForRW, sbppEptKey]
    · simp [SbppEnablePageShadowingForRW, sbppEptKey]
    · simp [SbppEnablePageShadowingForRW, sbppEptKey]
    · simp [SbppEnablePageShadowingForRW, sbppEptKey]
    · intro q hq
      simp only [sbppEptKey] at hq
      simp [SbppEnablePageShadowingForRW, hq]
    · simp [SbppEnablePageShadowingForRW]

/-- Witness for the amended C6 at a concrete machine: the modified entry
gets the shadow frame and permission bits, a distant entry is untouched,
and one invalidation is issued. -/
theorem sbp_enable_page_shadowing_effects_witness :
    ((SbppEnablePageShadowingForExec samplePre sampleMachine).eptEntries
        (sbppEptKey sampleMachine samplePre.patch_address)).physial_address =
      UtilPfnFromPa samplePre.pa_base_for_exec ∧
    (SbppEnablePageShadowingForExec samplePre sampleMachine).eptEntries 999 =
      sampleMachine.eptEntries 999 ∧
    ((SbppEnablePageShadowingForRW samplePre sampleMachine).eptEntries
        (sbppEptKey sampleMachine samplePre.patch_address)).read_access = true ∧
    (SbppEnablePageShadowingForRW samplePre sampleMachine).inveptCount =
      sampleMachine.inveptCount + 1 := by
  obtain ⟨hexec, hrw⟩ := sbp_enable_page_shadowing_effects sampleMachine samplePre
  exact ⟨hexec.2.2.2.1, hexec.2.2.2.2.1 999 (by decide), hrw.2.1,
         hrw.2.2.2.2.2⟩

/-! ### MTF handling (claim C7) -/

/-- Claim C7: handling an MTF VM-exit retrieves and clears the last-event
slot (which must be non-null — an empty slot is a fatal null dereference),
re-enables the exec shadow view for the retrieved record, clears the
monitor-trap-flag bit of the processor-based controls, and restores the
guest interrupt flag from the per-processor saved slot; conversely, arming
MTF saves the guest's interrupt-enable flag into that slot and clears it in
guest RFLAGS. -/
theorem sbp_monitor_trap_flag_spec (s t : Machine) (info : PatchInformation) :
    (s.g_sbpp_last_breakpoint = some info →
      ∃ s', SbpHandleMonitorTrapFlag s = .ok s' ∧
        s'.g_sbpp_last_breakpoint = none ∧
        s'.cpuBasedVmExecControl.monitor_trap_flag = false ∧
        s'.cpuBasedVmExecControl.rest = s.cpuBasedVmExecControl.rest ∧
        s'.guestRflags.intf = s.g_sbpp_previouse_guest_interrupt_flag ∧
        (s'.eptEntries (sbppEptKey s info.patch_address)).read_access = false ∧
        (s'.eptEntries (sbppEptKey s info.patch_address)).write_access = false ∧
        (s'.eptEntries (sbppEptKey s info.patch_address)).physial_address =
          UtilPfnFromPa info.pa_base_for_exec ∧
        s'.inveptCount = s.inveptCount + 1) ∧
    (s.g_sbpp_last_breakpoint = none →
      SbpHandleMonitorTrapFlag s = .error .nullDereference) ∧
    ((SbppSetMonitorTrapFlag true t).g_sbpp_previouse_guest_interrupt_flag =
        t.guestRflags.intf ∧
     (SbppSetMonitorTrapFlag true t).guestRflags.intf = false ∧
     (SbppSetMonitorTrapFlag true t).cpuBasedVmExecControl.monitor_trap_flag =
        true ∧
     (SbppSetMonitorTrapFlag true t).cpuBasedVmExecControl.rest =
        t.cpuBasedVmExecControl.rest) := by
  refine ⟨?_, ?_, ?_⟩
  · intro h
    refine ⟨SbppSetMonitorTrapFlag false (SbppEnablePageShadowingForExec info
      { s with g_sbpp_last_breakpoint := none }), ?_, ?_, ?_, ?_, ?_, ?_, ?_,
      ?_, ?_⟩
    · simp only [SbpHandleMonitorTrapFlag, SbppRestoreLastPatchInfo, h]
    · simp [SbppSetMonitorTrapFlag, SbppEnablePageShadowingForExec]
    · simp [SbppSetMonitorTrapFlag, SbppEnablePageShadowingForExec]
    · simp [SbppSetMonitorTrapFlag, SbppEnablePageShadowingForExec]
    · simp [SbppSetMonitorTrapFlag, SbppEnablePageShadowingForExec]
    · simp [SbppSetMonitorTrapFlag, SbppEnablePageShadowingForExec, sbppEptKey,
        UtilPaFromVa]
    · simp [SbppSetMonitorTrapFlag, SbppEnablePageShadowingForExec, sbppEptKey,
        UtilPaFromVa]
    · simp [SbppSetMonitorTrapFlag, SbppEnablePageShadowingForExec, sbppEptKey,
        UtilPaFromVa]
    · simp [SbppSetMonitorTrapFlag, SbppEnablePageShadowingForExec]
  · intro h
    simp only [SbpHandleMonitorTrapFlag, SbppRestoreLastPatchInfo, h]
  · refine ⟨?_, ?_, ?_, ?_⟩ <;> simp [SbppSetMonitorTrapFlag]

/-- Witness for C7: concrete machines exercising the retire path, the
empty-slot fatal path, and the arming path. -/
theorem sbp_monitor_trap_flag_spec_witness :
    (∃ s', SbpHandleMonitorTrapFlag mSlotPre = .ok s' ∧
      s'.g_sbpp_last_breakpoint = none ∧
      s'.cpuBasedVmExecControl.monitor_trap_flag = false ∧
      s'.cpuBasedVmExecControl.rest = mSlotPre.cpuBasedVmExecControl.rest ∧
      s'.guestRflags.intf = mSlotPre.g_sbpp_previouse_guest_interrupt_flag ∧
      (s'.eptEntries (sbppEptKey mSlotPre samplePre.patch_address)).read_access
        = false ∧
      (s'.eptEntries (sbppEptKey mSlotPre samplePre.patch_address)).write_access
        = false ∧
      (s'.eptEntries (sbppEptKey mSlotPre
          samplePre.patch_address)).physial_address =
        UtilPfnFromPa samplePre.pa_base_for_exec ∧
      s'.inveptCount = mSlotPre.inveptCount + 1) ∧
    SbpHandleMonitorTrapFlag sampleMachine = .error .nullDereference ∧
    (SbppSetMonitorTrapFlag true sampleMachine).guestRflags.intf = false :=
  ⟨(sbp_monitor_trap_flag_spec mSlotPre sampleMachine samplePre).1 rfl,
   (sbp_monitor_trap_flag_spec sampleMachine sampleMachine samplePre).2.1 rfl,
   (sbp_monitor_trap_flag_spec mSlotPre sampleMachine samplePre).2.2.2.1⟩

/-! ### Fatal conditions (claim C8) -/

/-- Counterexample to C8 as stated: storing into the last-event slot while
it is occupied does not terminate the host — `SbppSaveLastPatchInfo` is
guarded only by an `NT_ASSERT`, which is a no-op outside checked builds, so
the occupied slot is silently overwritten and execution continues. -/
theorem sbp_save_last_overwrite_counterexample :
    mOccupied.g_sbpp_last_breakpoint = some samplePost ∧
    (SbppSaveLastPatchInfo samplePre mOccupied).g_sbpp_last_breakpoint =
      some samplePre := by
  constructor <;> rfl

/-- Claim C8 (amended): allocation failure of a shadow page and a tracked
#BP hit above dispatch level bug-check the host; retiring MTF with an empty
last-event slot is fatal through the null dereference in the MTF handler;
but storing into an occupied last-event slot is only a debug assertion and
silently overwrites the slot. -/
theorem sbp_fatal_conditions_spec (s : Machine) (bps : List PatchInformation)
    (info : PatchInformation) (ip : Nat) :
    (s.allocOk s.nextPageId = false →
      allocatePage s = .error .kCritialPoolAllocationFailure) ∧
    (s.g_sbpp_last_breakpoint = none →
      SbpHandleMonitorTrapFlag s = .error .nullDereference) ∧
    (s.g_sbpp_breakpoints = some bps →
      SbppFindPatchInfoByAddress bps ip = some info →
      SbppIsShadowBreakpoint s info = true →
      DISPATCH_LEVEL < s.irql →
      SbpHandleBreakpoint s ip = .error .kUnspecified) ∧
    (∀ i, (SbppSaveLastPatchInfo i s).g_sbpp_last_breakpoint = some i) := by
  refine ⟨?_, ?_, ?_, ?_⟩
  · intro h
    simp [allocatePage, h]
  · intro h
    simp only [SbpHandleMonitorTrapFlag, SbppRestoreLastPatchInfo, h]
  · intro hreg hfind hshadow hirql
    simp only [SbpHandleBreakpoint, hreg, hfind, hshadow, if_true, hirql]
  · intro i
    rfl

/-- Witness for the amended C8 at `mFatal` (failing allocator, IRQL 3,
empty slot): all three fatal paths fire and the slot store is non-fatal. -/
theorem sbp_fatal_conditions_spec_witness :
    allocatePage mFatal = .error .kCritialPoolAllocationFailure ∧
    SbpHandleMonitorTrapFlag mFatal = .error .nullDereference ∧
    SbpHandleBreakpoint mFatal samplePre.patch_address =
      .error .kUnspecified ∧
    (SbppSaveLastPatchInfo samplePre mFatal).g_sbpp_last_breakpoint =
      some samplePre := by
  obtain ⟨h1, h2, h3, h4⟩ :=
    sbp_fatal_conditions_spec mFatal [samplePre] samplePre
      samplePre.patch_address
  exact ⟨h1 rfl, h2 rfl, h3 rfl (by decide) (by decide) (by decide),
         h4 samplePre⟩

/-! ### SLAT-violation handling (claim C4) -/

/-- Claim C4: a SLAT-violation VM-exit is ignored — the machine is left
unchanged — when the engine is uninitialized or no record's address lies on
the faulting page; otherwise the engine enables the rw shadow view for the
found record's page, arms the monitor trap flag, and stores the record in
the last-event slot. -/
theorem sbp_handle_ept_violation_spec (s : Machine) (fault_va : Nat) :
    (s.g_sbpp_breakpoints = none → SbpHandleEptViolation s fault_va = s) ∧
    (∀ bps, s.g_sbpp_breakpoints = some bps →
      (SbppFindPatchInfoByPage bps fault_va = none →
        SbpHandleEptViolation s fault_va = s) ∧
      (∀ info, SbppFindPatchInfoByPage bps fault_va = some info →
        (SbpHandleEptViolation s fault_va).g_sbpp_last_breakpoint =
          some info ∧
        (SbpHandleEptViolation s
          fault_va).cpuBasedVmExecControl.monitor_trap_flag = true ∧
        ((SbpHandleEptViolation s fault_va).eptEntries
          (sbppEptKey s info.patch_address)).read_access = true ∧
        ((SbpHandleEptViolation s fault_va).eptEntries
          (sbppEptKey s info.patch_address)).write_access = true ∧
        ((SbpHandleEptViolation s fault_va).eptEntries
          (sbppEptKey s info.patch_address)).physial_address =
          UtilPfnFromPa info.pa_base_for_rw ∧
        (∀ q, q ≠ sbppEptKey s info.patch_address →
          (SbpHandleEptViolation s fault_va).eptEntries q = s.eptEntries q) ∧
        (SbpHandleEptViolation s fault_va).inveptCount =
          s.inveptCount + 1)) := by
  constructor
  · intro h
    simp only [SbpHandleEptViolation, h]
  · intro bps hreg
    constructor
    · intro h
      simp only [SbpHandleEptViolation, hreg, h]
    · intro info hfind
      refine ⟨?_, ?_, ?_, ?_, ?_, ?_, ?_⟩
      · simp only [SbpHandleEptViolation, hreg, hfind]
        simp [SbppSaveLastPatchInfo, SbppSetMonitorTrapFlag,
          SbppEnablePageShadowingForRW]
      · simp only [SbpHandleEptViolation, hreg, hfind]
        simp [SbppSaveLastPatchInfo, SbppSetMonitorTrapFlag,
          SbppEnablePageShadowingForRW]
      · simp only [SbpHandleEptViolation, hreg, hfind]
        simp [SbppSaveLastPatchInfo, SbppSetMonitorTrapFlag,
          SbppEnablePageShadowingForRW, sbppEptKey, UtilPaFromVa]
      · simp only [SbpHandleEptViolation, hreg, hfind]
        simp [SbppSaveLastPatchInfo, SbppSetMonitorTrapFlag,
          SbppEnablePageShadowingForRW, sbppEptKey, UtilPaFromVa]
      · simp only [SbpHandleEptViolation, hreg, hfind]
        simp [SbppSaveLastPatchInfo, SbppSetMonitorTrapFlag,
          SbppEnablePageShadowingForRW, sbppEptKey, UtilPaFromVa]
      · intro q hq
        simp only [sbppEptKey] at hq
        simp only [SbpHandleEptViolation, hreg, hfind]
        simp [SbppSaveLastPatchInfo, SbppSetMonitorTrapFlag,
          SbppEnablePageShadowingForRW, hq]
      · simp only [SbpHandleEptViolation, hreg, hfind]
        simp [SbppSaveLastPatchInfo, SbppSetMonitorTrapFlag,
          SbppEnablePageShadowingForRW]

/-- Witness for C4: an uninitialized engine and an untracked page are
ignored; a fault on `samplePre`'s page installs the rw view, arms MTF, and
saves the record. -/
theorem sbp_handle_ept_violation_spec_witness :
    SbpHandleEptViolation mInactive 0x21ABC = mInactive ∧
    SbpHandleEptViolation sampleMachine 0x999ABC = sampleMachine ∧
    (SbpHandleEptViolation sampleMachine 0x21ABC).g_sbpp_last_breakpoint =
      some samplePre ∧
    (SbpHandleEptViolation sampleMachine
      0x21ABC).cpuBasedVmExecControl.monitor_trap_flag = true ∧
    ((SbpHandleEptViolation sampleMachine 0x21ABC).eptEntries
      (sbppEptKey sampleMachine samplePre.patch_address)).write_access =
      true := by
  have h1 := (sbp_handle_ept_violation_spec mInactive 0x21ABC).1 rfl
  have h2 := ((sbp_handle_ept_violation_spec sampleMachine 0x999ABC).2
    [samplePre, samplePost] rfl).1 (by decide)
  have h3 := ((sbp_handle_ept_violation_spec sampleMachine 0x21ABC).2
    [samplePre, samplePost] rfl).2 samplePre (by decide)
  exact ⟨h1, h2, h3.1, h3.2.1, h3.2.2.2.1⟩

/-! ### The #BP handler, Pre records (claim C1) -/

/-- Claim C1: on a #BP VM-exit at the address of a Pre record — engine
active, address tracked, rw-shadow byte not 0xCC, IRQL at most dispatch
level — the record's handler runs bracketed by the write of the guest's
CR3 (read from the VMCS) and, immediately after it returns, the restore of
the VMM's saved CR3; then, in this order, the SLAT view of the page is
switched to the rw shadow, the monitor trap flag is armed, and the record
is stored in the last-event slot; the exit is consumed (true, no
reinjection). -/
theorem sbp_handle_breakpoint_pre_flow (s : Machine)
    (bps : List PatchInformation) (info : PatchInformation) (ip : Nat)
    (hreg : s.g_sbpp_breakpoints = some bps)
    (hfind : SbppFindPatchInfoByAddress bps ip = some info)
    (htype : info.type = BreakpointType.kPre)
    (hshadow : SbppIsShadowBreakpoint s info = true)
    (hirql : s.irql ≤ DISPATCH_LEVEL) :
    ∃ s', SbpHandleBreakpoint s ip =
        .ok (true, s',
          [SbpAction.writeCr3 s.guestCr3,
           SbpAction.runHandler info.handler s.guestRsp,
           SbpAction.writeCr3 s.cr3, SbpAction.enableRW info,
           SbpAction.setMtf true, SbpAction.saveLastInfo info]) ∧
      s'.cr3 = s.cr3 ∧
      s'.g_sbpp_last_breakpoint = some info ∧
      s'.cpuBasedVmExecControl.monitor_trap_flag = true ∧
      (s'.eptEntries (sbppEptKey s info.patch_address)).read_access = true ∧
      (s'.eptEntries (sbppEptKey s info.patch_address)).write_access = true ∧
      (s'.eptEntries (sbppEptKey s info.patch_address)).physial_address =
        UtilPfnFromPa info.pa_base_for_rw ∧
      s'.inveptCount = s.inveptCount + 1 := by
  have hn : ¬ (DISPATCH_LEVEL < s.irql) := Nat.not_lt.mpr hirql
  refine ⟨SbppSaveLastPatchInfo info (SbppSetMonitorTrapFlag true
    (SbppEnablePageShadowingForRW info s)), ?_, ?_, ?_, ?_, ?_, ?_, ?_, ?_⟩
  · simp only [SbpHandleBreakpoint, hreg, hfind, hshadow, if_true, hn,
      if_false, htype]
    rw [← hreg]
  · simp [SbppSaveLastPatchInfo, SbppSetMonitorTrapFlag,
      SbppEnablePageShadowingForRW]
  · simp [SbppSaveLastPatchInfo, SbppSetMonitorTrapFlag,
      SbppEnablePageShadowingForRW]
  · simp [SbppSaveLastPatchInfo, SbppSetMonitorTrapFlag,
      SbppEnablePageShadowingForRW]
  · simp [SbppSaveLastPatchInfo, SbppSetMonitorTrapFlag,
      SbppEnablePageShadowingForRW, sbppEptKey, UtilPaFromVa]
  · simp [SbppSaveLastPatchInfo, SbppSetMonitorTrapFlag,
      SbppEnablePageShadowingForRW, sbppEptKey, UtilPaFromVa]
  · simp [SbppSaveLastPatchInfo, SbppSetMonitorTrapFlag,
      SbppEnablePageShadowingForRW, sbppEptKey, UtilPaFromVa]
  · simp [SbppSaveLastPatchInfo, SbppSetMonitorTrapFlag,
      SbppEnablePageShadowingForRW]

/-- Witness for C1: the Pre record `samplePre` hit at its own address on
`sampleMachine`. -/
theorem sbp_handle_breakpoint_pre_flow_witness :
    ∃ s', SbpHandleBreakpoint sampleMachine 0x21008 =
        .ok (true, s',
          [SbpAction.writeCr3 sampleMachine.guestCr3,
           SbpAction.runHandler samplePre.handler sampleMachine.guestRsp,
           SbpAction.writeCr3 sampleMachine.cr3,
           SbpAction.enableRW samplePre,
           SbpAction.setMtf true, SbpAction.saveLastInfo samplePre]) ∧
      s'.cr3 = sampleMachine.cr3 ∧
      s'.g_sbpp_last_breakpoint = some samplePre ∧
      s'.cpuBasedVmExecControl.monitor_trap_flag = true ∧
      (s'.eptEntries (sbppEptKey sampleMachine
        samplePre.patch_address)).read_access = true ∧
      (s'.eptEntries (sbppEptKey sampleMachine
        samplePre.patch_address)).write_access = true ∧
      (s'.eptEntries (sbppEptKey sampleMachine
        samplePre.patch_address)).physial_address =
        UtilPfnFromPa samplePre.pa_base_for_rw ∧
      s'.inveptCount = sampleMachine.inveptCount + 1 :=
  sbp_handle_breakpoint_pre_flow sampleMachine [samplePre, samplePost]
    samplePre 0x21008 rfl (by decide) rfl (by decide) (by decide)

/-! ### The #BP handler, Post records (claim C2) -/

theorem sbppEptKey_page_align (s : Machine) (a : Nat) :
    sbppEptKey s (PAGE_ALIGN a) = sbppEptKey s a := by
  unfold sbppEptKey UtilPaFromVa PAGE_ALIGN PAGE_SIZE
  have h1 : a / 4096 * 4096 / 4096 = a / 4096 :=
    Nat.mul_div_cancel _ (by norm_num)
  have h2 : a / 4096 * 4096 % 4096 = 0 := Nat.mul_mod_left _ _
  rw [h1, h2]
  omega

/-- Claim C2: on a #BP at the address of a Post record (engine active,
address tracked, rw byte not 0xCC, IRQL at most dispatch): when the current
thread is the record's owner, the post handler runs bracketed by the CR3
switch, the record is erased, and the SLAT entry is restored to the
identity mapping exactly when no record remains on the page; when the
current thread differs, the handler does not run, nothing is erased, and
the engine instead enables the rw view, arms MTF, and saves the record as
the last event. -/
theorem sbp_handle_breakpoint_post_flow (s : Machine)
    (bps : List PatchInformation) (info : PatchInformation) (ip : Nat)
    (hreg : s.g_sbpp_breakpoints = some bps)
    (hfind : SbppFindPatchInfoByAddress bps ip = some info)
    (htype : info.type = BreakpointType.kPost)
    (hshadow : SbppIsShadowBreakpoint s info = true)
    (hirql : s.irql ≤ DISPATCH_LEVEL) :
    (info.target_tid = some s.currentThread →
      (SbppFindPatchInfoByPage (sbppEraseFirstMatch info bps) ip = none →
        ∃ s', SbpHandleBreakpoint s ip = .ok (true, s',
            [SbpAction.writeCr3 s.guestCr3,
             SbpAction.runHandler info.handler s.guestRsp,
             SbpAction.writeCr3 s.cr3, SbpAction.eraseFromList info,
             SbpAction.disableShadowing info]) ∧
          s'.g_sbpp_breakpoints = some (sbppEraseFirstMatch info bps) ∧
          s'.cr3 = s.cr3 ∧
          (s'.eptEntries (sbppEptKey s info.patch_address)).read_access =
            true ∧
          (s'.eptEntries (sbppEptKey s info.patch_address)).write_access =
            true ∧
          (s'.eptEntries (sbppEptKey s info.patch_address)).execute_access =
            true ∧
          (s'.eptEntries (sbppEptKey s info.patch_address)).physial_address =
            UtilPfnFromPa (UtilPaFromVa s (PAGE_ALIGN info.patch_address)) ∧
          s'.inveptCount = s.inveptCount + 1) ∧
      (∀ r, SbppFindPatchInfoByPage (sbppEraseFirstMatch info bps) ip =
          some r →
        ∃ s', SbpHandleBreakpoint s ip = .ok (true, s',
            [SbpAction.writeCr3 s.guestCr3,
             SbpAction.runHandler info.handler s.guestRsp,
             SbpAction.writeCr3 s.cr3, SbpAction.eraseFromList info]) ∧
          s'.g_sbpp_breakpoints = some (sbppEraseFirstMatch info bps) ∧
          s'.cr3 = s.cr3 ∧
          s'.eptEntries = s.eptEntries ∧
          s'.inveptCount = s.inveptCount ∧
          s'.g_sbpp_last_breakpoint = s.g_sbpp_last_breakpoint)) ∧
    (info.target_tid ≠ some s.currentThread →
      ∃ s', SbpHandleBreakpoint s ip = .ok (true, s',
          [SbpAction.enableRW info, SbpAction.setMtf true,
           SbpAction.saveLastInfo info]) ∧
        s'.g_sbpp_breakpoints = s.g_sbpp_breakpoints ∧
        s'.g_sbpp_last_breakpoint = some info ∧
        s'.cpuBasedVmExecControl.monitor_trap_flag = true ∧
        (s'.eptEntries (sbppEptKey s info.patch_address)).read_access =
          true ∧
        (s'.eptEntries (sbppEptKey s info.patch_address)).write_access =
          true ∧
        (s'.eptEntries (sbppEptKey s info.patch_address)).physial_address =
          UtilPfnFromPa info.pa_base_for_rw ∧
        s'.inveptCount = s.inveptCount + 1) := by
  have hn : ¬ (DISPATCH_LEVEL < s.irql) := Nat.not_lt.mpr hirql
  constructor
  · intro htid
    constructor
    · intro hnone
      refine ⟨SbppDisablePageShadowing info { s with g_sbpp_breakpoints := some (sbppEraseFirstMatch info bps) }, ?_, ?_, ?_, ?_, ?_, ?_, ?_, ?_⟩
      · simp only [SbpHandleBreakpoint, hreg, hfind, hshadow, if_true, hn,
          if_false, htype, htid, SbppDeleteBreakpointFromList, hnone]
      · simp [SbppDisablePageShadowing]
      · simp [SbppDisablePageShadowing]
      · rw [← sbppEptKey_page_align s info.patch_address]
        simp [SbppDisablePageShadowing, sbppEptKey, UtilPaFromVa]
      · rw [← sbppEptKey_page_align s info.patch_address]
        simp [SbppDisablePageShadowing, sbppEptKey, UtilPaFromVa]
      · rw [← sbppEptKey_page_align s info.patch_address]
        simp [SbppDisablePageShadowing, sbppEptKey, UtilPaFromVa]
      · rw [← sbppEptKey_page_align s info.patch_address]
        simp [SbppDisablePageShadowing, sbppEptKey, UtilPaFromVa]
      · simp [SbppDisablePageShadowing]
    · intro r hsome
      refine ⟨{ s with g_sbpp_breakpoints := some (sbppEraseFirstMatch info bps) }, ?_, rfl, rfl, rfl, rfl, rfl⟩
      simp only [SbpHandleBreakpoint, hreg, hfind, hshadow, if_true, hn,
        if_false, htype, htid, SbppDeleteBreakpointFromList, hsome]
  · intro htid
    have htid' : ¬ (info.target_tid = some s.currentThread) := htid
    refine ⟨SbppSaveLastPatchInfo info (SbppSetMonitorTrapFlag true
      (SbppEnablePageShadowingForRW info s)), ?_, ?_, ?_, ?_, ?_, ?_, ?_,
      ?_⟩
    · simp only [SbpHandleBreakpoint, hreg, hfind, hshadow, if_true, hn,
        if_false, htype, htid', if_neg]
    · simp [SbppSaveLastPatchInfo, SbppSetMonitorTrapFlag,
        SbppEnablePageShadowingForRW]
    · simp [SbppSaveLastPatchInfo, SbppSetMonitorTrapFlag,
        SbppEnablePageShadowingForRW]
    · simp [SbppSaveLastPatchInfo, SbppSetMonitorTrapFlag,
        SbppEnablePageShadowingForRW]
    · simp [SbppSaveLastPatchInfo, SbppSetMonitorTrapFlag,
        SbppEnablePageShadowingForRW, sbppEptKey, UtilPaFromVa]
    · simp [SbppSaveLastPatchInfo, SbppSetMonitorTrapFlag,
        SbppEnablePageShadowingForRW, sbppEptKey, UtilPaFromVa]
    · simp [SbppSaveLastPatchInfo, SbppSetMonitorTrapFlag,
        SbppEnablePageShadowingForRW, sbppEptKey, UtilPaFromVa]
    · simp [SbppSaveLastPatchInfo, SbppSetMonitorTrapFlag,
        SbppEnablePageShadowingForRW]

/-- Witness for C2: the Post record `samplePost` hit at its own address by
its owner thread (erase and full disarm) and by a different thread
(single-step instead). -/
theorem sbp_handle_breakpoint_post_flow_witness :
    (∃ s', SbpHandleBreakpoint sampleMachine 0x22010 = .ok (true, s',
        [SbpAction.writeCr3 sampleMachine.guestCr3,
         SbpAction.runHandler samplePost.handler sampleMachine.guestRsp,
         SbpAction.writeCr3 sampleMachine.cr3,
         SbpAction.eraseFromList samplePost,
         SbpAction.disableShadowing samplePost]) ∧
      s'.g_sbpp_breakpoints =
        some (sbppEraseFirstMatch samplePost [samplePre, samplePost]) ∧
      s'.cr3 = sampleMachine.cr3 ∧
      (s'.eptEntries (sbppEptKey sampleMachine
        samplePost.patch_address)).read_access = true ∧
      (s'.eptEntries (sbppEptKey sampleMachine
        samplePost.patch_address)).write_access = true ∧
      (s'.eptEntries (sbppEptKey sampleMachine
        samplePost.patch_address)).execute_access = true ∧
      (s'.eptEntries (sbppEptKey sampleMachine
        samplePost.patch_address)).physial_address =
        UtilPfnFromPa (UtilPaFromVa sampleMachine
          (PAGE_ALIGN samplePost.patch_address)) ∧
      s'.inveptCount = sampleMachine.inveptCount + 1) ∧
    (∃ s', SbpHandleBreakpoint mOtherThread 0x22010 = .ok (true, s',
        [SbpAction.enableRW samplePost, SbpAction.setMtf true,
         SbpAction.saveLastInfo samplePost]) ∧
      s'.g_sbpp_breakpoints = mOtherThread.g_sbpp_breakpoints ∧
      s'.g_sbpp_last_breakpoint = some samplePost ∧
      s'.cpuBasedVmExecControl.monitor_trap_flag = true ∧
      (s'.eptEntries (sbppEptKey mOtherThread
        samplePost.patch_address)).read_access = true ∧
      (s'.eptEntries (sbppEptKey mOtherThread
        samplePost.patch_address)).write_access = true ∧
      (s'.eptEntries (sbppEptKey mOtherThread
        samplePost.patch_address)).physial_address =
        UtilPfnFromPa samplePost.pa_base_for_rw ∧
      s'.inveptCount = mOtherThread.inveptCount + 1) :=
  ⟨((sbp_handle_breakpoint_post_flow sampleMachine [samplePre, samplePost]
      samplePost 0x22010 rfl (by decide) rfl (by decide) (by decide)).1
      rfl).1 (by decide),
   (sbp_handle_breakpoint_post_flow mOtherThread [samplePre, samplePost]
      samplePost 0x22010 rfl (by decide) rfl (by decide) (by decide)).2
      (by decide)⟩

/-! ### The #BP handler, not-ours classification (claim C3) -/

/-- Claim C3: `SbpHandleBreakpoint` returns false (so the #BP is reinjected
to the guest) exactly when the engine is uninitialized, or no record's
address equals the guest instruction pointer exactly, or the byte at the
patched offset within the found record's rw shadow is 0xCC; every other
tracked hit at IRQL at most dispatch level is consumed (returns true). -/
theorem sbp_handle_breakpoint_not_ours_iff (s : Machine) (ip : Nat) :
    ((∃ s' tr, SbpHandleBreakpoint s ip = .ok (false, s', tr)) ↔
      (SbppIsSbpActive s = false ∨
       (∃ bps, s.g_sbpp_breakpoints = some bps ∧
         SbppFindPatchInfoByAddress bps ip = none) ∨
       (∃ bps info, s.g_sbpp_breakpoints = some bps ∧
         SbppFindPatchInfoByAddress bps ip = some info ∧
         s.pageBytes info.shadow_page_base_for_rw
           (BYTE_OFFSET info.patch_address) = 0xcc))) ∧
    (∀ bps info, s.g_sbpp_breakpoints = some bps →
      SbppFindPatchInfoByAddress bps ip = some info →
      s.pageBytes info.shadow_page_base_for_rw
        (BYTE_OFFSET info.patch_address) ≠ 0xcc →
      s.irql ≤ DISPATCH_LEVEL →
      ∃ s' tr, SbpHandleBreakpoint s ip = .ok (true, s', tr)) := by
  constructor
  · constructor
    · rintro ⟨s', tr, h⟩
      cases hreg : s.g_sbpp_breakpoints with
      | none =>
        left
        simp [SbppIsSbpActive, hreg]
      | some bps =>
        cases hfind : SbppFindPatchInfoByAddress bps ip with
        | none =>
          right; left
          exact ⟨bps, rfl, hfind⟩
        | some info =>
          cases hshadow : SbppIsShadowBreakpoint s info with
          | false =>
            right; right
            refine ⟨bps, info, rfl, hfind, ?_⟩
            simpa [SbppIsShadowBreakpoint] using hshadow
          | true =>
            exfalso
            by_cases hirq : DISPATCH_LEVEL < s.irql
            · simp only [SbpHandleBreakpoint, hreg, hfind, hshadow, if_true,
                hirq, if_false] at h
              exact Except.noConfusion h
            · cases htype : info.type with
              | kPre =>
                simp only [SbpHandleBreakpoint, hreg, hfind, hshadow,
                  if_true, hirq, if_false, htype] at h
                simp at h
              | kPost =>
                by_cases htid : info.target_tid = some s.currentThread
                · cases h2 : SbppFindPatchInfoByPage
                    (sbppEraseFirstMatch info bps) ip with
                  | none =>
                    simp only [SbpHandleBreakpoint, hreg, hfind, hshadow,
                      if_true, hirq, if_false, htype, htid,
                      SbppDeleteBreakpointFromList, h2] at h
                    simp at h
                  | some r =>
                    simp only [SbpHandleBreakpoint, hreg, hfind, hshadow,
                      if_true, hirq, if_false, htype, htid,
                      SbppDeleteBreakpointFromList, h2] at h
                    simp at h
                · simp only [SbpHandleBreakpoint, hreg, hfind, hshadow,
                    if_true, hirq, if_false, htype, htid, if_neg] at h
                  simp at h
    · rintro (hact | ⟨bps, hreg, hfind⟩ | ⟨bps, info, hreg, hfind, hbyte⟩)
      · cases hreg : s.g_sbpp_breakpoints with
        | none =>
          exact ⟨s, [], by simp only [SbpHandleBreakpoint, hreg]⟩
        | some bps =>
          rw [SbppIsSbpActive, hreg] at hact
          simp at hact
      · exact ⟨s, [], by simp only [SbpHandleBreakpoint, hreg, hfind]⟩
      · have hsh : SbppIsShadowBreakpoint s info = false := by
          simp [SbppIsShadowBreakpoint, hbyte]
        exact ⟨s, [], by simp only [SbpHandleBreakpoint, hreg, hfind, hsh,
          Bool.false_eq_true, if_false]⟩
  · intro bps info hreg hfind hbyte hirql
    have hshadow : SbppIsShadowBreakpoint s info = true := by
      unfold SbppIsShadowBreakpoint
      exact decide_eq_true hbyte
    have hn : ¬ (DISPATCH_LEVEL < s.irql) := Nat.not_lt.mpr hirql
    cases htype : info.type with
    | kPre =>
      refine ⟨SbppSaveLastPatchInfo info (SbppSetMonitorTrapFlag true
        (SbppEnablePageShadowingForRW info s)),
        [SbpAction.writeCr3 s.guestCr3,
         SbpAction.runHandler info.handler s.guestRsp,
         SbpAction.writeCr3 s.cr3, SbpAction.enableRW info,
         SbpAction.setMtf true, SbpAction.saveLastInfo info], ?_⟩
      simp only [SbpHandleBreakpoint, hreg, hfind, hshadow, if_true, hn,
        if_false, htype]
      rw [← hreg]
    | kPost =>
      by_cases htid : info.target_tid = some s.currentThread
      · cases h2 : SbppFindPatchInfoByPage (sbppEraseFirstMatch info bps) ip
          with
        | none =>
          refine ⟨SbppDisablePageShadowing info { s with g_sbpp_breakpoints := some (sbppEraseFirstMatch info bps) },
            [SbpAction.writeCr3 s.guestCr3,
             SbpAction.runHandler info.handler s.guestRsp,
             SbpAction.writeCr3 s.cr3, SbpAction.eraseFromList info,
             SbpAction.disableShadowing info], ?_⟩
          simp only [SbpHandleBreakpoint, hreg, hfind, hshadow, if_true, hn,
            if_false, htype, htid, SbppDeleteBreakpointFromList, h2]
        | some r =>
          refine ⟨{ s with g_sbpp_breakpoints := some (sbppEraseFirstMatch info bps) },
            [SbpAction.writeCr3 s.guestCr3,
             SbpAction.runHandler info.handler s.guestRsp,
             SbpAction.writeCr3 s.cr3, SbpAction.eraseFromList info], ?_⟩
          simp only [SbpHandleBreakpoint, hreg, hfind, hshadow, if_true, hn,
            if_false, htype, htid, SbppDeleteBreakpointFromList, h2]
      · refine ⟨SbppSaveLastPatchInfo info (SbppSetMonitorTrapFlag true
          (SbppEnablePageShadowingForRW info s)),
          [SbpAction.enableRW info, SbpAction.setMtf true,
           SbpAction.saveLastInfo info], ?_⟩
        simp only [SbpHandleBreakpoint, hreg, hfind, hshadow, if_true, hn,
          if_false, htype, htid, if_neg]

/-- Witness for C3: on `sampleMachine`, an untracked address is refused and
the tracked address 0x21008 is consumed. -/
theorem sbp_handle_breakpoint_not_ours_iff_witness :
    (∃ s' tr, SbpHandleBreakpoint sampleMachine 0x30000 =
      .ok (false, s', tr)) ∧
    (∃ s' tr, SbpHandleBreakpoint sampleMachine 0x21008 =
      .ok (true, s', tr)) := by
  constructor
  · exact (sbp_handle_breakpoint_not_ours_iff sampleMachine 0x30000).1.2
      (Or.inr (Or.inl ⟨[samplePre, samplePost], rfl, by decide⟩))
  · exact (sbp_handle_breakpoint_not_ours_iff sampleMachine 0x21008).2
      [samplePre, samplePost] samplePre rfl (by decide) (by decide)
      (by decide)

/-! ### Breakpoint creation and the shadow bytes (claim C5) -/

/-- Claim C5: whenever `SbppCreateBreakpoint` returns a record, the byte at
offset (address mod 4096) of its exec shadow is 0xCC while the same offset
of its rw shadow holds the original guest byte; on the first patch of a
page both shadows are filled with the guest page's contents and 0xCC is
then written only into the exec shadow; a later record on an already
shadowed page reuses the existing pair and again only the exec shadow's
patch byte changes.  (The rw-pristine and distinct-pair hypotheses hold
for every registry built by creation, as the fresh branch shows.) -/
theorem sbp_create_breakpoint_shadow_bytes (s : Machine)
    (bps : List PatchInformation) (address : Nat) (info : PatchInformation)
    (s' : Machine)
    (hreg : s.g_sbpp_breakpoints = some bps)
    (hdistinct : sbppShadowPairsDistinct bps)
    (hpristine : sbppRwShadowPristine s bps)
    (hok : SbppCreateBreakpoint s address = .ok (info, s')) :
    s'.pageBytes info.shadow_page_base_for_exec (BYTE_OFFSET address) =
      0xcc ∧
    s'.pageBytes info.shadow_page_base_for_rw (BYTE_OFFSET address) =
      s.mem address ∧
    (SbppFindPatchInfoByPage bps address = none →
      (∀ off, off < PAGE_SIZE →
        s'.pageBytes info.shadow_page_base_for_rw off =
          s.mem (PAGE_ALIGN address + off)) ∧
      (∀ off, off < PAGE_SIZE → off ≠ BYTE_OFFSET address →
        s'.pageBytes info.shadow_page_base_for_exec off =
          s.mem (PAGE_ALIGN address + off))) ∧
    (∀ r, SbppFindPatchInfoByPage bps address = some r →
      info.shadow_page_base_for_rw = r.shadow_page_base_for_rw ∧
      info.shadow_page_base_for_exec = r.shadow_page_base_for_exec ∧
      (∀ id off, id ≠ r.shadow_page_base_for_exec →
        s'.pageBytes id off = s.pageBytes id off) ∧
      (∀ off, off ≠ BYTE_OFFSET address →
        s'.pageBytes r.shadow_page_base_for_exec off =
          s.pageBytes r.shadow_page_base_for_exec off)) := by
  cases hfind0 : SbppFindPatchInfoByPage bps address with
  | some r =>
    have hrmem : r ∈ bps := sbppFindPatchInfoByPage_mem hfind0
    have hrpage : PAGE_ALIGN r.patch_address = PAGE_ALIGN address :=
      sbppFindPatchInfoByPage_page hfind0
    have hrdist : r.shadow_page_base_for_rw ≠ r.shadow_page_base_for_exec :=
      hdistinct r hrmem
    simp only [SbppCreateBreakpoint, hreg, hfind0, Except.ok.injEq,
      Prod.mk.injEq] at hok
    obtain ⟨hinfo, hstate⟩ := hok
    subst hinfo
    subst hstate
    refine ⟨?_, ?_, ?_, ?_⟩
    · simp [SbppEmbedBreakpoint]
    · have h1 : (SbppEmbedBreakpoint s r.shadow_page_base_for_exec
          (BYTE_OFFSET address)).pageBytes r.shadow_page_base_for_rw
          (BYTE_OFFSET address) =
        s.pageBytes r.shadow_page_base_for_rw (BYTE_OFFSET address) := by
        simp [SbppEmbedBreakpoint, hrdist]
      rw [h1, hpristine r hrmem (BYTE_OFFSET address) (byte_offset_lt address),
        hrpage, page_align_add_offset]
    · intro h
      exact Option.noConfusion h
    · intro r' hr'
      injection hr' with hrr
      subst hrr
      refine ⟨rfl, rfl, ?_, ?_⟩
      · intro id off hne
        simp [SbppEmbedBreakpoint, hne]
      · intro off hne
        simp [SbppEmbedBreakpoint, hne]
  | none =>
    simp only [SbppCreateBreakpoint, hreg, hfind0, allocatePage] at hok
    cases h1 : s.allocOk s.nextPageId with
    | false => simp [h1] at hok
    | true =>
      simp only [h1, if_true] at hok
      cases h2 : s.allocOk (s.nextPageId + 1) with
      | false => simp [h2] at hok
      | true =>
        simp only [h2, if_true, copyGuestPage, SbppEmbedBreakpoint,
          Except.ok.injEq, Prod.mk.injEq] at hok
        obtain ⟨hinfo, hstate⟩ := hok
        subst hinfo
        subst hstate
        have hne : s.nextPageId ≠ s.nextPageId + 1 := by omega
        have hne' : s.nextPageId + 1 ≠ s.nextPageId := by omega
        refine ⟨?_, ?_, ?_, ?_⟩
        · simp
        · simp only [hne, if_false, if_neg hne]
          simp [byte_offset_lt address, page_align_add_offset]
        · intro _
          constructor
          · intro off hoff
            simp [hne, hoff]
          · intro off hoff hneq
            simp [hoff, hneq]
        · intro r hr
          exact Option.noConfusion hr

/-- Witness for C5: creating a breakpoint at 0x23004 (fresh page) and at
0x21010 (page already shadowed by `samplePre`, whose pair is reused). -/
theorem sbp_create_breakpoint_shadow_bytes_witness :
    (∃ info s', SbppCreateBreakpoint sampleMachine 0x23004 =
        .ok (info, s') ∧
      s'.pageBytes info.shadow_page_base_for_exec (BYTE_OFFSET 0x23004) =
        0xcc ∧
      s'.pageBytes info.shadow_page_base_for_rw (BYTE_OFFSET 0x23004) =
        sampleMachine.mem 0x23004) ∧
    (∃ info s', SbppCreateBreakpoint sampleMachine 0x21010 =
        .ok (info, s') ∧
      s'.pageBytes info.shadow_page_base_for_exec (BYTE_OFFSET 0x21010) =
        0xcc ∧
      s'.pageBytes info.shadow_page_base_for_rw (BYTE_OFFSET 0x21010) =
        sampleMachine.mem 0x21010 ∧
      info.shadow_page_base_for_rw = samplePre.shadow_page_base_for_rw) := by
  obtain ⟨i1, t1, h1⟩ :
      ∃ i t, SbppCreateBreakpoint sampleMachine 0x23004 = .ok (i, t) :=
    ⟨_, _, rfl⟩
  obtain ⟨i2, t2, h2⟩ :
      ∃ i t, SbppCreateBreakpoint sampleMachine 0x21010 = .ok (i, t) :=
    ⟨_, _, rfl⟩
  have c1 := sbp_create_breakpoint_shadow_bytes sampleMachine
    [samplePre, samplePost] 0x23004 i1 t1 rfl
    (by unfold sbppShadowPairsDistinct; decide)
    (fun i _ off _ => rfl) h1
  have c2 := sbp_create_breakpoint_shadow_bytes sampleMachine
    [samplePre, samplePost] 0x21010 i2 t2 rfl
    (by unfold sbppShadowPairsDistinct; decide)
    (fun i _ off _ => rfl) h2
  refine ⟨⟨i1, t1, h1, c1.1, c1.2.1⟩, ⟨i2, t2, h2, c2.1, c2.2.1, ?_⟩⟩
  exact (c2.2.2.2 samplePre (by decide)).1

/-! ### Post installation and invariant I2 (claim C9) -/

theorem sbppIsDuplicatedPost_iff (address : Nat) (tid : Option Nat)
    (x : PatchInformation) :
    sbppIsDuplicatedPost address tid x = true ↔
      (x.type = BreakpointType.kPost ∧
       PAGE_ALIGN x.patch_address = PAGE_ALIGN address ∧
       x.target_tid = tid) := by
  simp [sbppIsDuplicatedPost]

theorem sbppIsDuplicatedPost_params (address : Nat) (tid : Option Nat)
    (p : Nat) (x : PatchInformation) :
    sbppIsDuplicatedPost address tid { x with parameters := p } =
      sbppIsDuplicatedPost address tid x := rfl

theorem sbppOverwriteFirstDupParams_countP (address : Nat)
    (tid : Option Nat) (p : Nat) (pg : Nat) (tid2 : Option Nat) :
    ∀ l : List PatchInformation,
      List.countP (sbppIsDuplicatedPost pg tid2)
        (sbppOverwriteFirstDupParams address tid p l) =
      List.countP (sbppIsDuplicatedPost pg tid2) l := by
  intro l
  induction l with
  | nil => rfl
  | cons x xs ih =>
    unfold sbppOverwriteFirstDupParams
    by_cases h : sbppIsDuplicatedPost address tid x = true
    · rw [if_pos h, List.countP_cons, List.countP_cons,
        sbppIsDuplicatedPost_params]
    · rw [if_neg h, List.countP_cons, List.countP_cons, ih]

theorem sbppOverwriteFirstDupParams_append (address : Nat)
    (tid : Option Nat) (p : Nat) (d : PatchInformation)
    (suf : List PatchInformation) :
    ∀ pre : List PatchInformation,
      (∀ y ∈ pre, sbppIsDuplicatedPost address tid y = false) →
      sbppIsDuplicatedPost address tid d = true →
      sbppOverwriteFirstDupParams address tid p (pre ++ d :: suf) =
        pre ++ { d with parameters := p } :: suf := by
  intro pre
  induction pre with
  | nil =>
    intro _ hd
    show sbppOverwriteFirstDupParams address tid p (d :: suf) = _
    unfold sbppOverwriteFirstDupParams
    rw [if_pos hd]
    simp
  | cons y ys ih =>
    intro h hd
    show sbppOverwriteFirstDupParams address tid p (y :: (ys ++ d :: suf)) =
      y :: (ys ++ { d with parameters := p } :: suf)
    unfold sbppOverwriteFirstDupParams
    rw [if_neg (by simp [h y (List.mem_cons_self y ys)])]
    simp only [List.cons.injEq, true_and]
    exact ih (fun z hz => h z (List.mem_cons_of_mem y hz)) hd

/-- Inversion of the insert branch of `SbpCreateAndEnablePostBreakpoint`:
when no duplicated Post record exists and the call succeeds, the registry
gained exactly one new record at the end, a Post record built from the Pre
record and owned by the current thread, and its page's leaf entry is
exec-shadowed. -/
theorem sbpCreateAndEnablePost_insert_inv (s : Machine)
    (bps : List PatchInformation) (address : Nat)
    (info : PatchInformation) (parameters : Nat) (s' : Machine)
    (hreg : s.g_sbpp_breakpoints = some bps)
    (hdup : SbppFindDuplicatedPostPatchInfo bps address
      (some s.currentThread) = none)
    (hs' : SbpCreateAndEnablePostBreakpoint s address info parameters =
      .ok s') :
    ∃ ninfo, s'.g_sbpp_breakpoints = some (bps ++ [ninfo]) ∧
      ninfo.patch_address = address ∧
      ninfo.type = BreakpointType.kPost ∧
      ninfo.handler = info.post_handler ∧
      ninfo.post_handler = 0 ∧
      ninfo.target_tid = some s.currentThread ∧
      ninfo.parameters = parameters ∧
      ninfo.name = info.name ∧
      (s'.eptEntries (sbppEptKey s address)).read_access = false ∧
      (s'.eptEntries (sbppEptKey s address)).write_access = false ∧
      (s'.eptEntries (sbppEptKey s address)).physial_address =
        UtilPfnFromPa ninfo.pa_base_for_exec ∧
      s'.inveptCount = s.inveptCount + 1 := by
  cases hfind0 : SbppFindPatchInfoByPage bps address with
  | some r =>
    simp only [SbpCreateAndEnablePostBreakpoint, hreg, hdup,
      SbppCreatePostBreakpoint, SbppCreateBreakpoint, hfind0,
      SbppAddBreakpointToList, SbppEmbedBreakpoint, Except.ok.injEq] at hs'
    subst hs'
    refine ⟨{ patch_address := address, type := BreakpointType.kPost,
              handler := info.post_handler, post_handler := 0,
              target_tid := some s.currentThread, parameters := parameters,
              name := info.name,
              shadow_page_base_for_rw := r.shadow_page_base_for_rw,
              shadow_page_base_for_exec := r.shadow_page_base_for_exec,
              pa_base_for_rw := s.pagePaOf r.shadow_page_base_for_rw,
              pa_base_for_exec := s.pagePaOf r.shadow_page_base_for_exec },
      ?_, rfl, rfl, rfl, rfl, rfl, rfl, rfl, ?_, ?_, ?_, ?_⟩
    · simp [SbppEnablePageShadowingForExec]
    · simp [SbppEnablePageShadowingForExec, sbppEptKey, UtilPaFromVa]
    · simp [SbppEnablePageShadowingForExec, sbppEptKey, UtilPaFromVa]
    · simp [SbppEnablePageShadowingForExec, sbppEptKey, UtilPaFromVa]
    · simp [SbppEnablePageShadowingForExec]
  | none =>
    simp only [SbpCreateAndEnablePostBreakpoint, hreg, hdup,
      SbppCreatePostBreakpoint, SbppCreateBreakpoint, hfind0,
      allocatePage] at hs'
    cases h1 : s.allocOk s.nextPageId with
    | false => simp [h1] at hs'
    | true =>
      simp only [h1, if_true] at hs'
      cases h2 : s.allocOk (s.nextPageId + 1) with
      | false => simp [h2] at hs'
      | true =>
        simp only [h2, if_true, copyGuestPage, SbppEmbedBreakpoint,
          SbppAddBreakpointToList, Except.ok.injEq] at hs'
        subst hs'
        refine ⟨{ patch_address := address, type := BreakpointType.kPost,
                  handler := info.post_handler, post_handler := 0,
                  target_tid := some s.currentThread,
                  parameters := parameters,
                  name := info.name,
                  shadow_page_base_for_rw := s.nextPageId,
                  shadow_page_base_for_exec := s.nextPageId + 1,
                  pa_base_for_rw := s.pagePaOf s.nextPageId,
                  pa_base_for_exec := s.pagePaOf (s.nextPageId + 1) },
          ?_, rfl, rfl, rfl, rfl, rfl, rfl, rfl, ?_, ?_, ?_, ?_⟩
        · simp [SbppEnablePageShadowingForExec]
        · simp [SbppEnablePageShadowingForExec, sbppEptKey, UtilPaFromVa]
        · simp [SbppEnablePageShadowingForExec, sbppEptKey, UtilPaFromVa]
        · simp [SbppEnablePageShadowingForExec, sbppEptKey, UtilPaFromVa]
        · simp [SbppEnablePageShadowingForExec]

/-- Claim C9: `SbpCreateAndEnablePostBreakpoint` preserves the at-most-one
Post per (page, owner thread) invariant: when a duplicated Post record
exists, only its captured parameters are overwritten in place and no record
is inserted; otherwise a Post record built from the Pre record (its handler
the Pre's post handler, owned by the current thread) is appended and its
page immediately exec-shadowed; and the registry keeps the invariant. -/
theorem sbp_create_and_enable_post_breakpoint_spec (s : Machine)
    (bps : List PatchInformation) (address : Nat)
    (info : PatchInformation) (parameters : Nat)
    (hreg : s.g_sbpp_breakpoints = some bps) :
    (∀ d, SbppFindDuplicatedPostPatchInfo bps address
        (some s.currentThread) = some d →
      SbpCreateAndEnablePostBreakpoint s address info parameters = .ok { s with g_sbpp_breakpoints := some (sbppOverwriteFirstDupParams address (some s.currentThread) parameters bps) } ∧
      ∃ pre suf, bps = pre ++ d :: suf ∧
        (∀ y ∈ pre, sbppIsDuplicatedPost address (some s.currentThread) y =
          false) ∧
        sbppOverwriteFirstDupParams address (some s.currentThread)
          parameters bps = pre ++ { d with parameters := parameters } ::
            suf) ∧
    (SbppFindDuplicatedPostPatchInfo bps address (some s.currentThread) =
        none →
      (s.allocOk s.nextPageId = true → s.allocOk (s.nextPageId + 1) = true →
        ∃ u, SbpCreateAndEnablePostBreakpoint s address info parameters =
          .ok u) ∧
      (∀ s', SbpCreateAndEnablePostBreakpoint s address info parameters =
          .ok s' →
        ∃ ninfo, s'.g_sbpp_breakpoints = some (bps ++ [ninfo]) ∧
          ninfo.patch_address = address ∧
          ninfo.type = BreakpointType.kPost ∧
          ninfo.handler = info.post_handler ∧
          ninfo.post_handler = 0 ∧
          ninfo.target_tid = some s.currentThread ∧
          ninfo.parameters = parameters ∧
          ninfo.name = info.name ∧
          (s'.eptEntries (sbppEptKey s address)).read_access = false ∧
          (s'.eptEntries (sbppEptKey s address)).write_access = false ∧
          (s'.eptEntries (sbppEptKey s address)).physial_address =
            UtilPfnFromPa ninfo.pa_base_for_exec ∧
          s'.inveptCount = s.inveptCount + 1)) ∧
    (sbppAtMostOnePostPer bps →
      ∀ s', SbpCreateAndEnablePostBreakpoint s address info parameters =
        .ok s' →
      ∀ bps', s'.g_sbpp_breakpoints = some bps' →
      sbppAtMostOnePostPer bps') := by
  refine ⟨?_, ?_, ?_⟩
  · intro d hdup
    constructor
    · simp only [SbpCreateAndEnablePostBreakpoint, hreg, hdup]
    · have hdup' := hdup
      unfold SbppFindDuplicatedPostPatchInfo at hdup'
      rw [List.find?_eq_some] at hdup'
      obtain ⟨hpred, pre, suf, heq, hall⟩ := hdup'
      refine ⟨pre, suf, heq, fun y hy => by simpa using hall y hy, ?_⟩
      rw [heq]
      exact sbppOverwriteFirstDupParams_append address
        (some s.currentThread) parameters d suf pre
        (fun y hy => by simpa using hall y hy) hpred
  · intro hdup
    constructor
    · intro h1 h2
      cases hres : SbpCreateAndEnablePostBreakpoint s address info
          parameters with
      | ok u => exact ⟨u, rfl⟩
      | error e =>
        exfalso
        cases hfind0 : SbppFindPatchInfoByPage bps address with
        | some r =>
          simp only [SbpCreateAndEnablePostBreakpoint, hreg, hdup,
            SbppCreatePostBreakpoint, SbppCreateBreakpoint, hfind0,
            SbppAddBreakpointToList, SbppEmbedBreakpoint] at hres
          exact Except.noConfusion hres
        | none =>
          simp only [SbpCreateAndEnablePostBreakpoint, hreg, hdup,
            SbppCreatePostBreakpoint, SbppCreateBreakpoint, hfind0,
            allocatePage, h1, if_true, h2, copyGuestPage,
            SbppEmbedBreakpoint, SbppAddBreakpointToList] at hres
          exact Except.noConfusion hres
    · intro s' hs'
      exact sbpCreateAndEnablePost_insert_inv s bps address info parameters
        s' hreg hdup hs'
  · intro hA s' hs' bps' hbps'
    cases hdup : SbppFindDuplicatedPostPatchInfo bps address
        (some s.currentThread) with
    | some d =>
      simp only [SbpCreateAndEnablePostBreakpoint, hreg, hdup,
        Except.ok.injEq] at hs'
      subst hs'
      have hb : some (sbppOverwriteFirstDupParams address
          (some s.currentThread) parameters bps) = some bps' := hbps'
      injection hb with hb2
      subst hb2
      intro pg tid
      rw [sbppOverwriteFirstDupParams_countP]
      exact hA pg tid
    | none =>
      obtain ⟨ninfo, hb, haddr, htype2, _, _, htid2, _, _, _, _, _, _⟩ :=
        sbpCreateAndEnablePost_insert_inv s bps address info parameters s'
          hreg hdup hs'
      rw [hb] at hbps'
      injection hbps' with hb2
      subst hb2
      intro pg tid
      rw [List.countP_append]
      by_cases hp : sbppIsDuplicatedPost pg tid ninfo = true
      · have hzero : List.countP (sbppIsDuplicatedPost pg tid) bps = 0 := by
          rw [List.countP_eq_zero]
          intro a ha hcona
          obtain ⟨hat, hap, hatid⟩ :=
            (sbppIsDuplicatedPost_iff pg tid a).mp hcona
          obtain ⟨hnt, hnp, hntid⟩ :=
            (sbppIsDuplicatedPost_iff pg tid ninfo).mp hp
          have hdup2 : sbppIsDuplicatedPost address
              (some s.currentThread) a = true := by
            rw [sbppIsDuplicatedPost_iff]
            refine ⟨hat, ?_, ?_⟩
            · rw [hap, ← hnp, haddr]
            · rw [hatid, ← hntid, htid2]
          unfold SbppFindDuplicatedPostPatchInfo at hdup
          rw [List.find?_eq_none] at hdup
          exact absurd hdup2 (by simpa using hdup a ha)
        rw [hzero]
        simp [List.countP_cons, hp]
      · have hz1 : List.countP (sbppIsDuplicatedPost pg tid) [ninfo] = 0 :=
          by simp [List.countP_cons, hp]
        rw [hz1]
        simpa using hA pg tid

/-- Witness for C9: at 0x22014 (same page and thread as `samplePost`) the
duplicate is overwritten in place; at 0x23004 a new Post record is built
from `samplePre`, appended, and the invariant is preserved. -/
theorem sbp_create_and_enable_post_breakpoint_spec_witness :
    SbpCreateAndEnablePostBreakpoint sampleMachine 0x22014 samplePre 123 = .ok { sampleMachine with g_sbpp_breakpoints := some (sbppOverwriteFirstDupParams 0x22014 (some sampleMachine.currentThread) 123 [samplePre, samplePost]) } ∧
    (∃ u ninfo,
      SbpCreateAndEnablePostBreakpoint sampleMachine 0x23004 samplePre 55 =
        .ok u ∧
      u.g_sbpp_breakpoints = some ([samplePre, samplePost] ++ [ninfo]) ∧
      ninfo.handler = samplePre.post_handler ∧
      ninfo.target_tid = some sampleMachine.currentThread ∧
      ninfo.parameters = 55 ∧
      (∀ bps', u.g_sbpp_breakpoints = some bps' →
        sbppAtMostOnePostPer bps')) := by
  have hA : sbppAtMostOnePostPer [samplePre, samplePost] := by
    intro pg tid
    rw [List.countP_cons, List.countP_cons, List.countP_nil]
    have h1 : sbppIsDuplicatedPost pg tid samplePre = false := by
      unfold sbppIsDuplicatedPost samplePre
      simp
    rw [h1]
    by_cases h2 : sbppIsDuplicatedPost pg tid samplePost = true
    · simp [h2]
    · simp [h2]
  constructor
  · exact ((sbp_create_and_enable_post_breakpoint_spec sampleMachine
      [samplePre, samplePost] 0x22014 samplePre 123 rfl).1 samplePost
      (by decide)).1
  · obtain ⟨u, hu⟩ :
        ∃ u, SbpCreateAndEnablePostBreakpoint sampleMachine 0x23004
          samplePre 55 = .ok u :=
      ((sbp_create_and_enable_post_breakpoint_spec sampleMachine
        [samplePre, samplePost] 0x23004 samplePre 55 rfl).2.1
        (by decide)).1 rfl rfl
    obtain ⟨ninfo, hb, _, _, hhandler, _, htid, hparams, _, _, _, _, _⟩ :=
      ((sbp_create_and_enable_post_breakpoint_spec sampleMachine
        [samplePre, samplePost] 0x23004 samplePre 55 rfl).2.1
        (by decide)).2 u hu
    refine ⟨u, ninfo, hu, hb, hhandler, htid, hparams, ?_⟩
    intro bps' hbps'
    exact (sbp_create_and_enable_post_breakpoint_spec sampleMachine
      [samplePre, samplePost] 0x23004 samplePre 55 rfl).2.2 hA u hu bps'
      hbps'
